import Mathlib

/-!
Verification of the Webvisor session-recording system: a shallow embedding
of the client SDK (DOMRecorder, InteractionRecorder, InputRecorder,
NavigationRecorder, the Webvisor session controller) and the server stores
(SessionStore, PostgresStore), with theorems settling the specified
behavioural claims.

Browser-supplied values (DOM nodes, regular expressions, the network) are
modelled explicitly: DOM nodes become a rose tree with attribute lists,
node references become paths into that tree, compiled regular expressions
become boolean test functions, and network delivery becomes an explicit
success flag.
-/

namespace Webvisor

/-! ## Shared constants (src/shared/constants.js) -/

/-- Event type tags from constants.js (a closed numeric enumeration). -/
def EventType_DOM_SNAPSHOT : Nat := 0

def EventType_DOM_MUTATION : Nat := 1

def EventType_MOUSE_MOVE : Nat := 2

def EventType_MOUSE_CLICK : Nat := 3

def EventType_SCROLL : Nat := 4

def EventType_INPUT : Nat := 5

def EventType_RESIZE : Nat := 6

def EventType_PAGE_LOAD : Nat := 7

def EventType_PAGE_TRANSITION : Nat := 8

def EventType_SESSION_START : Nat := 9

def EventType_SESSION_END : Nat := 10

/-- Mutation type tags from constants.js. -/
def MutationType_CHILD_LIST : Nat := 0

def MutationType_ATTRIBUTES : Nat := 1

def MutationType_CHARACTER_DATA : Nat := 2

/-- Sensitive field types masked by default (constants.js SENSITIVE_INPUT_TYPES). -/
def SENSITIVE_INPUT_TYPES : List String :=
  ["password", "email", "tel", "credit-card", "cc-number", "cc-exp", "cc-csc"]

/-! ## String operation models

Models of the JS string builtins used by the sources (toLowerCase, trim,
split on whitespace runs, includes, join).  They are written as structural
recursions over character lists so that every concrete computation reduces
inside the kernel.  toLowerCase is modelled on the ASCII range (every
string the sources compare is ASCII).
-/

/-- Model of JS String.prototype.toLowerCase on the ASCII range. -/
def jsToLower (s : String) : String :=
  String.mk (s.data.map Char.toLower)

/-- Model of JS String.prototype.trim. -/
def jsTrim (s : String) : String :=
  String.mk (((s.data.dropWhile Char.isWhitespace).reverse.dropWhile Char.isWhitespace).reverse)

/-- Split a character list at every separator character, keeping empty
pieces (the same shape as Lean's split; callers model the regex split on
whitespace runs by dropping the empty pieces, which agrees with JS
split on a run regex for trimmed subjects). -/
def splitChars (p : Char → Bool) : List Char → List Char → List String
  | [], cur => [String.mk cur.reverse]
  | c :: rest, cur =>
    if p c then (String.mk cur.reverse) :: splitChars p rest []
    else splitChars p rest (c :: cur)

/-- Model of JS className.trim().split(regex whitespace run): the
non-empty whitespace-separated tokens of the trimmed string. -/
def wsTokens (s : String) : List String :=
  (splitChars Char.isWhitespace (jsTrim s).data []).filter (fun t => t != "")

/-- Model of JS Array.prototype.join. -/
def joinSep (sep : String) : List String → String
  | [] => ""
  | [s] => s
  | s :: rest => s ++ sep ++ joinSep sep rest

/-! ## DOM model

A DOM node is a rose tree.  An element carries its (uppercase) tag name,
its attribute list, its live control value (the `.value` IDL attribute of
input/textarea controls) and its selected index (select controls).  Node
references are paths (child indices) into a document tree, which models
JavaScript object identity for nodes of one static document.
-/

/-- Model of a DOM node. -/
inductive DNode : Type where
  | element (tag : String) (attrs : List (String × String)) (value : String)
      (selectedIndex : Int) (children : List DNode)
  | text (content : String)
  | comment (content : String)

/-- DOM nodeType of a node (ELEMENT_NODE = 1, TEXT_NODE = 3, COMMENT_NODE = 8). -/
def DNode.nodeType : DNode → Nat
  | .element _ _ _ _ _ => 1
  | .text _ => 3
  | .comment _ => 8

/-- DOM nodeName (tag name for elements, #text / #comment otherwise). -/
def DNode.nodeName : DNode → String
  | .element t _ _ _ _ => t
  | .text _ => "#text"
  | .comment _ => "#comment"

/-- Element tagName; empty for non-elements (on which the sources never read it). -/
def DNode.tagName : DNode → String
  | .element t _ _ _ _ => t
  | .text _ => ""
  | .comment _ => ""

/-- Child list of a node (childNodes; empty for character-data nodes). -/
def DNode.childNodes : DNode → List DNode
  | .element _ _ _ _ cs => cs
  | .text _ => []
  | .comment _ => []

/-- getAttribute: the value of a content attribute, or none when absent. -/
def DNode.attrOf : DNode → String → Option String
  | .element _ attrs _ _ _, n => (attrs.find? (fun a => a.1 == n)).map (fun a => a.2)
  | .text _, _ => none
  | .comment _, _ => none

/-- hasAttribute. -/
def DNode.hasAttr (n : DNode) (name : String) : Bool :=
  (n.attrOf name).isSome

/-- Reflected element id (the id content attribute, empty when absent). -/
def DNode.elemId (n : DNode) : String :=
  (n.attrOf "id").getD ""

/-- Reflected className (the class content attribute, empty when absent). -/
def DNode.className (n : DNode) : String :=
  (n.attrOf "class").getD ""

mutual

/-- textContent: character data for text and comment nodes, and the
concatenated data of the text descendants for elements. -/
def DNode.textContent : DNode → String
  | .text c => c
  | .comment c => c
  | .element _ _ _ _ cs => textContentChildren cs

/-- Concatenated data of the text descendants of a child list. -/
def textContentChildren : List DNode → String
  | [] => ""
  | .text c :: rest => c ++ textContentChildren rest
  | .comment _ :: rest => textContentChildren rest
  | .element _ _ _ _ cs :: rest => textContentChildren cs ++ textContentChildren rest

end

/-- Valid input type keywords of the HTML platform; the type IDL attribute
of an input element reflects the type content attribute limited to these
keywords, defaulting to text. -/
def validInputTypes : List String :=
  ["button", "checkbox", "color", "date", "datetime-local", "email", "file",
   "hidden", "image", "month", "number", "password", "radio", "range",
   "reset", "search", "submit", "tel", "text", "time", "url", "week"]

/-- Model of the external HTMLInputElement.type getter: the type content
attribute, ASCII-lowercased, when it names a valid input type; text
otherwise. -/
def inputTypeOf (e : DNode) : String :=
  match e.attrOf "type" with
  | some t => if validInputTypes.contains (jsToLower t) then jsToLower t else "text"
  | none => "text"

/-! ## Substring and pattern tests (models of JS String.includes and the
sensitive-name regular expressions of constants.js) -/

/-- Does the second character list occur at the head of the first? -/
def listStartsWith : List Char → List Char → Bool
  | _, [] => true
  | [], _ :: _ => false
  | c :: cs, d :: ds => c == d && listStartsWith cs ds

/-- Does the second character list occur contiguously inside the first? -/
def listContainsSeq (s pat : List Char) : Bool :=
  match s with
  | [] => pat.isEmpty
  | _ :: rest => listStartsWith s pat || listContainsSeq rest pat

/-- Model of JS String.prototype.includes. -/
def strIncludes (s pat : String) : Bool :=
  listContainsSeq s.data pat.data

/-- Line terminators, which the regex dot does not match. -/
def isLineTerm (c : Char) : Bool :=
  c == Char.ofNat 10 || c == Char.ofNat 13 || c == Char.ofNat 0x2028 || c == Char.ofNat 0x2029

/-- After a match of social, can dot-star followed by security match here? -/
def dotStarSecurity : List Char → Bool
  | [] => false
  | c :: rest =>
    listStartsWith (c :: rest) "security".data || (!isLineTerm c && dotStarSecurity rest)

/-- Model of the regex social dot-star security applied at every start
position (the subject is already lowercased by the caller). -/
def socialSecurityTest : List Char → Bool
  | [] => false
  | c :: rest =>
    (listStartsWith (c :: rest) "social".data && dotStarSecurity ((c :: rest).drop 6))
      || socialSecurityTest rest

/-- One sensitive-name pattern of constants.js: all are case-insensitive
substring tests except the social-dot-star-security pattern. -/
inductive SensPattern : Type where
  | simple (pat : String)
  | socialSecurity
deriving Repr, DecidableEq

/-- Model of RegExp.test for the sensitive-name patterns (the /i flag is
modelled by lowercasing the subject; every pattern is lowercase ASCII). -/
def SensPattern.test : SensPattern → String → Bool
  | .simple pat, s => strIncludes (jsToLower s) pat
  | .socialSecurity, s => socialSecurityTest (jsToLower s).data

/-- SENSITIVE_NAME_PATTERNS from constants.js, in source order. -/
def SENSITIVE_NAME_PATTERNS : List SensPattern :=
  [.simple "password", .simple "passwd", .simple "credit", .simple "card",
   .simple "cvv", .simple "cvc", .simple "ssn", .socialSecurity,
   .simple "secret", .simple "token"]

/-! ## InputRecorder masking (src/client/recorder/InputRecorder.js) -/

/-- InputRecorder.shouldMask, transcribed from the source: maskAllInputs
first; then an early false when maskSensitiveInputs is off; then the
sensitive type and autocomplete checks for input elements; then the
sensitive name/id/placeholder patterns; the explicit data-ym-mask
attribute is consulted last. -/
def InputRecorder.shouldMask (maskAllInputs maskSensitiveInputs : Bool) (e : DNode) : Bool :=
  if maskAllInputs then true
  else if !maskSensitiveInputs then false
  else
    let typeHit :=
      if e.tagName == "INPUT" then
        let inputType := jsToLower (inputTypeOf e)
        if SENSITIVE_INPUT_TYPES.contains inputType then true
        else
          let autocomplete := jsToLower ((e.attrOf "autocomplete").getD "")
          SENSITIVE_INPUT_TYPES.any (fun t => strIncludes autocomplete t)
      else false
    if typeHit then true
    else
      let nm := (e.attrOf "name").getD ""
      let id := e.elemId
      let placeholder := (e.attrOf "placeholder").getD ""
      if SENSITIVE_NAME_PATTERNS.any
          (fun p => p.test nm || p.test id || p.test placeholder) then true
      else e.hasAttr "data-ym-mask"

/-- InputRecorder.maskValue: the empty string stays empty (the falsy
guard), otherwise a star repeated min(length, 20) times. -/
def InputRecorder.maskValue (value : String) : String :=
  if value == "" then "" else String.mk (List.replicate (min value.length 20) '*')

/-! ## Node references

A node reference is the path of child indices leading from the document
root to the node; it models JS object identity for the nodes of one
document.  The selector and exclusion walks recurse over the reversed
path (leaf index first) so that moving to the parent is structural.
-/

/-- Paths of child indices, root first. -/
abbrev Path := List Nat

/-- The node a path leads to, when the path is valid. -/
def nodeAt : DNode → Path → Option DNode
  | n, [] => some n
  | n, i :: rest =>
    match n.childNodes[i]? with
    | some c => nodeAt c rest
    | none => none

/-- Model of the external CSS.escape builtin.  It is the identity on the
identifier-safe names (ASCII letters, digits, hyphen, underscore) that
appear in this development; the escaping of other code points is not
modelled. -/
def cssEscape (s : String) : String := s

/-! ## Selector derivation (getSelector, src/client/recorder/DOMRecorder.js) -/

/-- One path component of getSelector for the element n sitting at the
reversed path rp: the lowercase tag name, then up to two class tokens
when className is a non-empty string, then an nth-of-type suffix when
the parent has more than one child element with this tag name.  The
sibling index models Array.prototype.indexOf over the parent's same-tag
child elements, which is the count of same-tag elements before this
node's child position. -/
def selectorPart (root : DNode) (rp : List Nat) (n : DNode) : String :=
  let base := jsToLower n.tagName
  let withClasses :=
    if n.className != "" then
      let classes := (wsTokens n.className).take 2
      if classes != [] then base ++ "." ++ joinSep "." (classes.map cssEscape)
      else base
    else base
  match rp with
  | [] => withClasses
  | i :: above =>
    match nodeAt root above.reverse with
    | some par =>
      let sibs := par.childNodes.filter (fun c => c.nodeType == 1 && c.tagName == n.tagName)
      if sibs.length > 1 then
        let idx :=
          ((par.childNodes.take i).filter
            (fun c => c.nodeType == 1 && c.tagName == n.tagName)).length
        withClasses ++ ":nth-of-type(" ++ toString (idx + 1) ++ ")"
      else withClasses
    | none => withClasses

/-- The while loop of getSelector over the reversed path, accumulating
parts leaf side in, so the returned list reads root to leaf like the
unshift calls of the source.  An ancestor with an id contributes its
escaped id and ends the walk; otherwise the walk ends past the root or
as soon as more than five parts were collected. -/
def getSelectorLoop (root : DNode) : List Nat → List String → List String
  | [], acc =>
    match nodeAt root [] with
    | some n =>
      if n.nodeType == 1 then
        if n.elemId != "" then ("#" ++ cssEscape n.elemId) :: acc
        else selectorPart root [] n :: acc
      else acc
    | none => acc
  | i :: above, acc =>
    match nodeAt root (i :: above).reverse with
    | some n =>
      if n.nodeType == 1 then
        if n.elemId != "" then ("#" ++ cssEscape n.elemId) :: acc
        else
          let acc1 := selectorPart root (i :: above) n :: acc
          if acc1.length > 5 then acc1
          else getSelectorLoop root above acc1
      else acc
    | none => acc

/-- getSelector: the empty string for a missing or non-element node, the
escaped #id for an element with an id, and otherwise the walk toward the
root joined with the child separator. -/
def getSelector (root : DNode) (p : Path) : String :=
  match nodeAt root p with
  | none => ""
  | some n =>
    if n.nodeType != 1 then ""
    else if n.elemId != "" then "#" ++ cssEscape n.elemId
    else joinSep " > " (getSelectorLoop root p.reverse [])

/-! ## Exclusion checks -/

/-- The ancestor walk shared by every recorder's isExcluded: does the
node at the reversed path, or any ancestor element, carry the exclusion
attribute?  A non-element ends the walk with false. -/
def excludedChain (attrName : String) (root : DNode) : List Nat → Bool
  | [] =>
    match nodeAt root [] with
    | some n => n.nodeType == 1 && n.hasAttr attrName
    | none => false
  | i :: above =>
    match nodeAt root (i :: above).reverse with
    | some n =>
      if n.nodeType == 1 then
        n.hasAttr attrName || excludedChain attrName root above
      else false
    | none => false

/-- DOMRecorder.isExcluded: false for a missing or non-element node,
otherwise the ancestor walk. -/
def DOMRecorder.isExcluded (attrName : String) (root : DNode) (p : Path) : Bool :=
  match nodeAt root p with
  | none => false
  | some n => if n.nodeType != 1 then false else excludedChain attrName root p.reverse

/-- InputRecorder.isExcluded: false only for a missing node (no
element-ness guard in this recorder), otherwise the same ancestor walk. -/
def InputRecorder.isExcluded (attrName : String) (root : DNode) (p : Path) : Bool :=
  match nodeAt root p with
  | none => false
  | some _ => excludedChain attrName root p.reverse

/-- Is the node at p inside an excluded subtree: does the path or one of
its prefixes lead to an element carrying the exclusion attribute?  This
is the specification-side notion an excluded subtree member. -/
def underExcluded (attrName : String) (root : DNode) (p : Path) : Bool :=
  (List.range (p.length + 1)).any (fun k =>
    match nodeAt root (p.take k) with
    | some n => n.nodeType == 1 && n.hasAttr attrName
    | none => false)

/-! ## Node serialization (serializeNode, src/client/recorder/DOMRecorder.js) -/

/-- A serialized node: the conditional fields of the object serializeNode
builds (attrs only when the element has attributes, children only when it
has child nodes, value for input and textarea, selectedIndex for select). -/
inductive SNode : Type where
  | mk (ntype : Nat) (name : String) (text : Option String)
      (attrs : Option (List (String × String))) (children : Option (List SNode))
      (value : Option String) (selectedIndex : Option Int)

mutual

/-- serializeNode: none for an element contained in the excluded set
(membership is by node identity, modelled as path membership); text and
comment nodes carry their character data; elements carry their
attributes, recursively serialized children in document order (dropping
none results), the live value for input and textarea, and the selected
index for select. -/
def serializeNode (n : DNode) (p : Path) (excluded : List Path) : Option SNode :=
  if n.nodeType == 1 && excluded.contains p then none
  else
    match n with
    | .text c => some (.mk 3 "#text" (some c) none none none none)
    | .comment c => some (.mk 8 "#comment" (some c) none none none none)
    | .element tag attrs value selIdx children =>
      let sattrs := if attrs.length > 0 then some attrs else none
      let schildren :=
        if children.length > 0 then some (serializeChildren children p 0 excluded)
        else none
      let svalue := if tag == "INPUT" || tag == "TEXTAREA" then some value else none
      let sselected := if tag == "SELECT" then some selIdx else none
      some (.mk 1 tag none sattrs schildren svalue sselected)

/-- The child loop of serializeNode: serialize every child in order,
keeping only the non-null results. -/
def serializeChildren : List DNode → Path → Nat → List Path → List SNode
  | [], _, _, _ => []
  | c :: rest, p, i, excluded =>
    match serializeNode c (p ++ [i]) excluded with
    | some s => s :: serializeChildren rest p (i + 1) excluded
    | none => serializeChildren rest p (i + 1) excluded

end

mutual

/-- Does a serialized node carry the given attribute, here or on any
serialized descendant?  Used to state that a serialized subtree leaks an
excluded element. -/
def SNode.hasAttrDeep : SNode → String → Bool
  | .mk _ _ _ attrs children _ _, a =>
    (match attrs with
     | some l => l.any (fun kv => kv.1 == a)
     | none => false)
    || (match children with
        | some cs => snodesHaveAttr cs a
        | none => false)

/-- hasAttrDeep over a serialized child list. -/
def snodesHaveAttr : List SNode → String → Bool
  | [], _ => false
  | c :: rest, a => c.hasAttrDeep a || snodesHaveAttr rest a

end

/-! ## Node identity registry (DOMRecorder.getNodeId) -/

/-- The WeakMap plus counter owned by a DOMRecorder: an association from
node identity to integer and the next id to hand out.  The key type is
abstract; the recorder instantiates it with node references. -/
structure Registry (α : Type) where
  nodeIdMap : List (α × Nat)
  nextNodeId : Nat

/-- A fresh registry: empty map, counter starting at 1. -/
def Registry.init {α : Type} : Registry α := ⟨[], 1⟩

/-- Association lookup by key identity, the model of WeakMap get/has
(membership in a WeakMap is by object identity). -/
def mapLookup {α : Type} [DecidableEq α] : α → List (α × Nat) → Option Nat
  | _, [] => none
  | a, (k, b) :: rest => if a = k then some b else mapLookup a rest

/-- DOMRecorder.getNodeId: hand back the recorded id, or record the next
counter value for an unseen node and hand that back. -/
def DOMRecorder.getNodeId {α : Type} [DecidableEq α] (r : Registry α) (node : α) :
    Nat × Registry α :=
  match mapLookup node r.nodeIdMap with
  | some i => (i, r)
  | none => (r.nextNodeId, ⟨(node, r.nextNodeId) :: r.nodeIdMap, r.nextNodeId + 1⟩)

/-! ## Mutation processing (DOMRecorder.processMutations) -/

/-- The kind of a MutationRecord, a closed platform enumeration. -/
inductive MKind : Type where
  | childList
  | attributes
  | characterData

/-- A MutationRecord as delivered by the platform observer: its kind, its
target, its added and removed node lists, and the attribute name and old
value where the kind provides them. -/
structure MutationRecord where
  mtype : MKind
  target : Path
  addedNodes : List Path
  removedNodes : List Path
  attributeName : Option String
  oldValue : Option String

/-- The data object of a structural-mutation event: target id and
selector always, the remaining fields set by the branch for the record's
kind (an outer none marks a field the branch does not set, an inner none
a JS null value). -/
structure DomEventData where
  targetId : Nat
  targetSelector : String
  mutationType : Nat
  addedNodes : Option (List (Nat × Option SNode)) := none
  removedNodes : Option (List Nat) := none
  attributeName : Option (Option String) := none
  oldValue : Option (Option String) := none
  newValue : Option (Option String) := none

/-- A structural event produced by the DOM recorder. -/
structure DomEvent where
  etype : Nat
  timestamp : Nat
  data : DomEventData

/-- The added-nodes mapping of the childList branch: for each kept added
node, its id from the registry and its serialization with the default
empty excluded set (the source calls serializeNode without passing the
excluded elements). -/
def mapAddedNodes (root : DNode) : List Path → Registry Path →
    List (Nat × Option SNode) × Registry Path
  | [], r => ([], r)
  | p :: rest, r =>
    let (i, r1) := DOMRecorder.getNodeId r p
    let s :=
      match nodeAt root p with
      | some n => serializeNode n p []
      | none => none
    let (tl, r2) := mapAddedNodes root rest r1
    ((i, s) :: tl, r2)

/-- The removed-nodes mapping: each removed node's registry id. -/
def mapRemovedNodes : List Path → Registry Path → List Nat × Registry Path
  | [], r => ([], r)
  | p :: rest, r =>
    let (i, r1) := DOMRecorder.getNodeId r p
    let (tl, r2) := mapRemovedNodes rest r1
    (i :: tl, r2)

/-- One iteration of processMutations: skip the record when the target is
an element inside an excluded subtree (the guard tests element-ness of
the target first, so a character-data target that is a text node is never
skipped); otherwise build the event for the record's kind. -/
def processOneMutation (attrName : String) (root : DNode) (now : Nat)
    (r : Registry Path) (m : MutationRecord) : Registry Path × Option DomEvent :=
  let targetIsElement :=
    match nodeAt root m.target with
    | some n => n.nodeType == 1
    | none => false
  if targetIsElement && DOMRecorder.isExcluded attrName root m.target then (r, none)
  else
    let (tid, r1) := DOMRecorder.getNodeId r m.target
    let tsel := getSelector root m.target
    match m.mtype with
    | .childList =>
      let kept := m.addedNodes.filter (fun p =>
        match nodeAt root p with
        | some n =>
          if n.nodeType == 1 then !(DOMRecorder.isExcluded attrName root p) else true
        | none => true)
      let (added, r2) := mapAddedNodes root kept r1
      let (removed, r3) := mapRemovedNodes m.removedNodes r2
      (r3, some ⟨EventType_DOM_MUTATION, now,
        { targetId := tid, targetSelector := tsel,
          mutationType := MutationType_CHILD_LIST,
          addedNodes := some added, removedNodes := some removed }⟩)
    | .attributes =>
      let newVal :=
        match m.attributeName with
        | some an => (nodeAt root m.target).bind (fun n => n.attrOf an)
        | none => none
      (r1, some ⟨EventType_DOM_MUTATION, now,
        { targetId := tid, targetSelector := tsel,
          mutationType := MutationType_ATTRIBUTES,
          attributeName := some m.attributeName,
          oldValue := some m.oldValue, newValue := some newVal }⟩)
    | .characterData =>
      (r1, some ⟨EventType_DOM_MUTATION, now,
        { targetId := tid, targetSelector := tsel,
          mutationType := MutationType_CHARACTER_DATA,
          oldValue := some m.oldValue,
          newValue := some ((nodeAt root m.target).map DNode.textContent) }⟩)

/-- DOMRecorder.processMutations: fold the records in order, threading
the node registry and collecting the produced events. -/
def DOMRecorder.processMutations (attrName : String) (root : DNode) (now : Nat)
    (r : Registry Path) : List MutationRecord → Registry Path × List DomEvent
  | [] => (r, [])
  | m :: rest =>
    let (r1, ev) := processOneMutation attrName root now r m
    let (r2, evs) := DOMRecorder.processMutations attrName root now r1 rest
    (r2, match ev with | some e => e :: evs | none => evs)

/-! ## Navigation recorder (src/client/recorder/NavigationRecorder.js)

Compiled exclusion patterns (RegExp objects) are modelled as boolean test
functions on URLs; pattern.test(url) is function application.
-/

/-- Navigation recorder state: the current-URL bookkeeping. -/
structure NavState where
  currentUrl : String
deriving DecidableEq

/-- A page-transition event with the payload recordTransition emits. -/
structure NavEvent where
  etype : Nat
  timestamp : Nat
  trigger : String
  fromUrl : String
  toUrl : String
  title : String
deriving DecidableEq

/-- NavigationRecorder.isExcludedPage: does any exclusion pattern match
the URL? -/
def NavigationRecorder.isExcludedPage (excludePages : List (String → Bool))
    (url : String) : Bool :=
  excludePages.any (fun pat => pat url)

/-- NavigationRecorder.recordTransition: return unchanged when the URL
did not change or the new URL is excluded (the excluded-page early return
happens before currentUrl is assigned); otherwise advance currentUrl and
emit one page-transition event from the previous URL to the new one. -/
def NavigationRecorder.recordTransition (excludePages : List (String → Bool))
    (trigger newUrl title : String) (now : Nat) (s : NavState) :
    NavState × List NavEvent :=
  if newUrl == s.currentUrl then (s, [])
  else if NavigationRecorder.isExcludedPage excludePages newUrl then (s, [])
  else
    ({ currentUrl := newUrl },
     [⟨EventType_PAGE_TRANSITION, now, trigger, s.currentUrl, newUrl, title⟩])

/-! ## Session controller and batching pipeline (src/client/Webvisor.js)

Events reaching the controller are modelled with their type, timestamp,
the sessionId stamp the controller adds, and a payload the controller
treats opaquely except for the session-end payload it builds itself.
Delivery over the network is modelled by an explicit success flag, and
events enqueued while a flush's network call is outstanding by an
explicit arrivals list.
-/

/-- An event payload as the controller sees it. -/
inductive WData : Type where
  | sessionEndData (url : String) (eventsRecorded : Nat)
  | channelData (tag : Nat)
deriving DecidableEq

/-- An event record flowing through the controller. -/
structure WEvent where
  etype : Nat
  timestamp : Nat
  sessionId : Option String := none
  data : WData
deriving DecidableEq

/-- The controller state: recording flag, session id, the recorded event
log, the pending send queue, and the batch timer flag. -/
structure WState where
  isRecording : Bool
  sessionId : Option String
  events : List WEvent
  sendQueue : List WEvent
  batchTimerOn : Bool
deriving DecidableEq

/-- The queue transformation of Webvisor.sendBatch: an empty queue
returns at once; otherwise the head batch (up to batchSize events) is
spliced off, events arriving during the outstanding network call append
to the remainder, and on failure the unshift puts the batch back at the
head, ahead of those arrivals.  The arrivals also append after an empty
early return, through their own handleEvent calls. -/
def sendBatchQueue (batchSize : Nat) (deliverOk : Bool)
    (arrivals : List WEvent) (q : List WEvent) : List WEvent :=
  if q.length = 0 then q ++ arrivals
  else
    let batch := q.take batchSize
    let rest := q.drop batchSize
    if deliverOk then rest ++ arrivals
    else batch ++ (rest ++ arrivals)

/-- sendBatch on the controller state, for the flush points where no new
events can arrive during the call (the stop path, after the channels are
detached). -/
def sendBatchState (batchSize : Nat) (deliverOk : Bool) (s : WState) : WState :=
  { s with sendQueue := sendBatchQueue batchSize deliverOk [] s.sendQueue }

/-- Webvisor.handleEvent: drop the event while not recording; otherwise
stamp the sessionId, append to the event log and the send queue, and
trigger a size-based flush when the queue reached batchSize. -/
def handleEvent (batchSize : Nat) (deliverOk : Bool) (s : WState)
    (e : WEvent) : WState :=
  if !s.isRecording then s
  else
    let e1 := { e with sessionId := s.sessionId }
    let s1 := { s with events := s.events ++ [e1], sendQueue := s.sendQueue ++ [e1] }
    if batchSize ≤ s1.sendQueue.length then sendBatchState batchSize deliverOk s1
    else s1

/-- Webvisor.stop: a no-op while not recording; otherwise clear the
recording flag, hand a session-end event to handleEvent, stop the
recorders (no effect on this state), stop the batch timer, and flush the
remaining queue. -/
def stop (batchSize : Nat) (deliverOk : Bool) (now : Nat) (url : String)
    (s : WState) : WState :=
  if !s.isRecording then s
  else
    let s1 := { s with isRecording := false }
    let s2 := handleEvent batchSize deliverOk s1
      { etype := EventType_SESSION_END, timestamp := now,
        data := WData.sessionEndData url s1.events.length }
    let s3 := { s2 with batchTimerOn := false }
    sendBatchState batchSize deliverOk s3

/-! ## File-based session store (src/server/storage/SessionStore.js) -/

/-- The character class the session-id sanitizer keeps: ASCII letters,
digits, underscore and hyphen. -/
def allowedIdChar (c : Char) : Bool :=
  (Char.ofNat 97 ≤ c && c ≤ Char.ofNat 122) ||
  (Char.ofNat 65 ≤ c && c ≤ Char.ofNat 90) ||
  (Char.ofNat 48 ≤ c && c ≤ Char.ofNat 57) ||
  c == Char.ofNat 95 || c == Char.ofNat 45

/-- The replace call of getSessionPath: drop every character outside the
allowed class. -/
def SessionStore.sanitizeId (sessionId : String) : String :=
  String.mk (sessionId.data.filter allowedIdChar)

/-- Model of node path.join for a directory and a plain relative file
name containing no separators and no dot segments (the only way the
store calls it). -/
def pathJoin (dir name : String) : String := dir ++ "/" ++ name

/-- SessionStore.getSessionPath: the sanitized id plus the .json suffix,
joined under the storage directory. -/
def SessionStore.getSessionPath (storagePath sessionId : String) : String :=
  pathJoin storagePath (SessionStore.sanitizeId sessionId ++ ".json")

/-! ## PostgreSQL store (src/server/storage/PostgresStore.js)

The database is modelled as row lists with the serial visitor id made
explicit.  storeEvents is modelled on its committed path: the source
wraps the statements in one transaction and rolls back on error, so the
reachable results are exactly the full effect or no effect.
-/

/-- A visitors row. -/
structure VisitorRow where
  vid : Nat
  fingerprint : String
  ip_address : Option String
  screen_width : Option Int
  screen_height : Option Int
  user_agent : Option String
  language : Option String
  timezone : Option String
  first_seen : Nat
  last_seen : Nat
  visit_count : Nat
deriving DecidableEq

/-- A sessions row. -/
structure SessionRow where
  session_id : String
  visitor_id : Option Nat
  fingerprint : Option String
  ip_address : Option String
  url : Option String
  title : Option String
  referrer : Option String
  user_agent : Option String
  screen_width : Option Int
  screen_height : Option Int
  viewport_width : Option Int
  viewport_height : Option Int
  created_at : Nat
  updated_at : Nat
  event_count : Nat
deriving DecidableEq

/-- An events row (the JSONB payload kept as its serialized text). -/
structure EventRow where
  session_id : String
  event_type : Nat
  timestamp : Nat
  dataJson : String
deriving DecidableEq

/-- An incoming event of a posted batch. -/
structure EventIn where
  etype : Nat
  timestamp : Nat
  dataJson : String
deriving DecidableEq

/-- The batch metadata of a POST body. -/
structure Meta where
  url : Option String := none
  title : Option String := none
  referrer : Option String := none
  userAgent : Option String := none
  language : Option String := none
  timezone : Option String := none
  screenW : Option Int := none
  screenH : Option Int := none
  viewportW : Option Int := none
  viewportH : Option Int := none
deriving DecidableEq

/-- The database state. -/
structure DB where
  visitors : List VisitorRow
  sessions : List SessionRow
  events : List EventRow
  nextVisitorId : Nat
deriving DecidableEq

/-- Truncation to a signed 32-bit integer (the coercion JS bitwise
operators apply). -/
def toInt32 (n : Int) : Int :=
  let m := ((n % 4294967296) + 4294967296) % 4294967296
  if 2147483648 ≤ m then m - 4294967296 else m

/-- One step of the fingerprint hash loop: hash shifted left five bits as
int32, minus hash, plus the character code, truncated to int32. -/
def jsHashStep (hash : Int) (c : Nat) : Int :=
  toInt32 (toInt32 (hash * 32) - hash + c)

/-- The fingerprint hash over a character list (character codes as code
points; every character the store hashes is ASCII). -/
def jsHash (s : List Char) : Int :=
  s.foldl (fun h c => jsHashStep h c.toNat) 0

/-- Base-36 digit characters. -/
def digit36 (n : Nat) : Char :=
  if n < 10 then Char.ofNat (48 + n) else Char.ofNat (87 + n)

/-- Fuelled base-36 digit accumulation (the fuel bounds the number of
digits; a value's own magnitude always suffices). -/
def natToBase36Aux : Nat → Nat → List Char → List Char
  | 0, _, acc => acc
  | _ + 1, 0, acc => acc
  | fuel + 1, n + 1, acc =>
    natToBase36Aux fuel ((n + 1) / 36) (digit36 ((n + 1) % 36) :: acc)

/-- Model of Number.prototype.toString(36) for naturals. -/
def natToBase36 (n : Nat) : String :=
  if n = 0 then "0" else String.mk (natToBase36Aux n n [])

/-- PostgresStore.generateFingerprint: screen width and height (0 when
absent) and the client address (unknown when absent) joined with pipes,
hashed, and rendered in base 36 behind the fp marker. -/
def PostgresStore.generateFingerprint (meta : Meta) (clientIP : Option String) : String :=
  let w := match meta.screenW with | some v => if v == 0 then "0" else toString v | none => "0"
  let h := match meta.screenH with | some v => if v == 0 then "0" else toString v | none => "0"
  let ip := (clientIP.getD "unknown")
  let str := w ++ "|" ++ h ++ "|" ++ ip
  "fp_" ++ natToBase36 (jsHash str.data).natAbs

/-- The visitor upsert statement inside storeEvents: on a fingerprint
conflict keep the stored address when the new one is null (COALESCE),
refresh last_seen and bump visit_count; otherwise insert a fresh row with
visit_count 1.  Returns the visitor id. -/
def upsertVisitorTx (db : DB) (now : Nat) (fingerprint : String)
    (clientIP : Option String) (meta : Meta) : Nat × DB :=
  match db.visitors.find? (fun v => v.fingerprint == fingerprint) with
  | some v =>
    let merge := fun (w : VisitorRow) =>
      if w.fingerprint == fingerprint then
        { w with
          ip_address := match clientIP with | some ip => some ip | none => w.ip_address,
          last_seen := now, visit_count := w.visit_count + 1 }
      else w
    (v.vid, { db with visitors := db.visitors.map merge })
  | none =>
    (db.nextVisitorId,
     { db with
       visitors := db.visitors ++
         [{ vid := db.nextVisitorId, fingerprint := fingerprint,
            ip_address := clientIP, screen_width := meta.screenW,
            screen_height := meta.screenH, user_agent := meta.userAgent,
            language := meta.language, timezone := meta.timezone,
            first_seen := now, last_seen := now, visit_count := 1 }],
       nextVisitorId := db.nextVisitorId + 1 })

/-- PostgresStore.storeEvents (committed path): upsert the visitor for
the derived fingerprint (always non-empty, so always attempted), insert
a sessions row only when none exists for this session id, append every
event of the batch to the events table, and finally bump event_count by
the batch length and refresh updated_at on the session row. -/
def PostgresStore.storeEvents (db : DB) (sessionId : String) (events : List EventIn)
    (meta : Meta) (clientIP : Option String) (now : Nat) : DB :=
  let fingerprint := PostgresStore.generateFingerprint meta clientIP
  let vres :=
    if fingerprint != "" then
      (some (upsertVisitorTx db now fingerprint clientIP meta).1,
       (upsertVisitorTx db now fingerprint clientIP meta).2)
    else (none, db)
  let visitorId := vres.1
  let db1 := vres.2
  let db2 :=
    if db1.sessions.any (fun s => s.session_id == sessionId) then db1
    else
      { db1 with sessions := db1.sessions ++
        [{ session_id := sessionId, visitor_id := visitorId,
           fingerprint := some fingerprint, ip_address := clientIP,
           url := meta.url, title := meta.title, referrer := meta.referrer,
           user_agent := meta.userAgent, screen_width := meta.screenW,
           screen_height := meta.screenH, viewport_width := meta.viewportW,
           viewport_height := meta.viewportH, created_at := now,
           updated_at := now, event_count := 0 }] }
  let db3 :=
    { db2 with events := db2.events ++
      events.map (fun (e : EventIn) =>
        ({ session_id := sessionId, event_type := e.etype,
           timestamp := e.timestamp, dataJson := e.dataJson } : EventRow)) }
  { db3 with sessions := db3.sessions.map (fun (s : SessionRow) =>
      if s.session_id == sessionId then
        { s with event_count := s.event_count + events.length, updated_at := now }
      else s) }

/-! ## Specification-side definitions

Definitions written from the words of the claims (not from the source),
used to compare the source behaviour against the claimed behaviour.
-/

/-- The selector walk exactly as claim C7 words it: every level
contributes the lowercase tag name with up to two class tokens and the
optional nth-of-type suffix; the walk stops only past the document root
or after five ancestor levels. -/
def claimedSelectorLoop (root : DNode) : List Nat → List String → List String
  | [], acc =>
    match nodeAt root [] with
    | some n => if n.nodeType == 1 then selectorPart root [] n :: acc else acc
    | none => acc
  | i :: above, acc =>
    match nodeAt root (i :: above).reverse with
    | some n =>
      if n.nodeType == 1 then
        let acc1 := selectorPart root (i :: above) n :: acc
        if acc1.length > 5 then acc1
        else claimedSelectorLoop root above acc1
      else acc
    | none => acc

/-- Claim C7's description of getSelector as a function: the escaped #id
immediately for an element with an id, otherwise the tag-name walk joined
with the child separator. -/
def getSelectorClaimed (root : DNode) (p : Path) : String :=
  match nodeAt root p with
  | none => ""
  | some n =>
    if n.nodeType != 1 then ""
    else if n.elemId != "" then "#" ++ cssEscape n.elemId
    else joinSep " > " (claimedSelectorLoop root p.reverse [])

/-- The selector walk as the amended claim words it: like the claimed
walk, except that a level whose element carries an id contributes that
escaped #id and ends the walk there. -/
def amendedSelectorLoop (root : DNode) : List Nat → List String → List String
  | [], acc =>
    match nodeAt root [] with
    | some n =>
      if n.nodeType == 1 then
        if n.elemId != "" then ("#" ++ cssEscape n.elemId) :: acc
        else selectorPart root [] n :: acc
      else acc
    | none => acc
  | i :: above, acc =>
    match nodeAt root (i :: above).reverse with
    | some n =>
      if n.nodeType == 1 then
        if n.elemId != "" then ("#" ++ cssEscape n.elemId) :: acc
        else
          let acc1 := selectorPart root (i :: above) n :: acc
          if acc1.length > 5 then acc1
          else amendedSelectorLoop root above acc1
      else acc
    | none => acc

/-- The amended claim C7 as a function: the escaped #id immediately for
an element with an id, otherwise the walk with the ancestor-id stop. -/
def getSelectorAmended (root : DNode) (p : Path) : String :=
  match nodeAt root p with
  | none => ""
  | some n =>
    if n.nodeType != 1 then ""
    else if n.elemId != "" then "#" ++ cssEscape n.elemId
    else joinSep " > " (amendedSelectorLoop root p.reverse [])

/-- Well-formedness of a node registry: no key recorded twice, no id
recorded twice, and every recorded id below the counter.  The fresh
registry satisfies it and getNodeId preserves it. -/
def Registry.WF {α : Type} (r : Registry α) : Prop :=
  (r.nodeIdMap.map (fun kv => kv.1)).Nodup ∧
  (r.nodeIdMap.map (fun kv => kv.2)).Nodup ∧
  ∀ kv ∈ r.nodeIdMap, kv.2 < r.nextNodeId

/-- Does a structural event's serialized added-nodes payload contain a
node carrying the given attribute anywhere in a serialized subtree? -/
def DomEvent.addedLeak (e : DomEvent) (attrName : String) : Bool :=
  match e.data.addedNodes with
  | some l => l.any (fun pr =>
      match pr.2 with
      | some s => s.hasAttrDeep attrName
      | none => false)
  | none => false

/-! ## Theorems -/

/-- Claim C1.  The claim states that an excluded subtree yields no event
of any kind: structural-mutation events whose target lies within it are
suppressed (including character-data mutations whose target is a text
node inside it), and serialized added nodes never include excluded
descendants.  The code violates both parts: its skip guard tests
element-ness of the target before the exclusion walk, so a character-data
mutation on a text node inside an excluded subtree produces an event
(leaking the text), and added nodes are serialized without the excluded
set, so a serialized added node includes an excluded descendant element.
This theorem evaluates processMutations on a document whose SECTION
subtree is excluded: the character-data record targeting the text node
inside it yields an event carrying the text, and the childList record
adding an ARTICLE with an excluded ASIDE child yields a serialized node
containing the exclusion attribute. -/
theorem processMutations_leaks_excluded_subtree :
    underExcluded "data-ym-disable"
      (DNode.element "DIV" [] "" 0
        [DNode.element "SECTION" [("data-ym-disable", "")] "" 0 [DNode.text "secret"],
         DNode.element "ARTICLE" [] "" 0
           [DNode.element "ASIDE" [("data-ym-disable", "")] "" 0 []]])
      [0, 0] = true ∧
    ((DOMRecorder.processMutations "data-ym-disable"
      (DNode.element "DIV" [] "" 0
        [DNode.element "SECTION" [("data-ym-disable", "")] "" 0 [DNode.text "secret"],
         DNode.element "ARTICLE" [] "" 0
           [DNode.element "ASIDE" [("data-ym-disable", "")] "" 0 []]])
      7 Registry.init
      [⟨MKind.characterData, [0, 0], [], [], none, some "old"⟩,
       ⟨MKind.childList, [], [[1]], [], none, none⟩]).2.map
        (fun e => (e.etype, e.data.mutationType, e.data.newValue, e.addedLeak "data-ym-disable")))
      = [(EventType_DOM_MUTATION, MutationType_CHARACTER_DATA, some (some "secret"), false),
         (EventType_DOM_MUTATION, MutationType_CHILD_LIST, none, true)] := by
  exact ⟨by decide, by decide⟩

/-- Claim C2.  The claim states that stop() on a recording session
appends a session-end event to the event log and the send queue before
stopping the channels and flushing.  The code clears isRecording before
handing the session-end event to handleEvent, whose not-recording guard
drops it, so no session-end event is ever recorded: on a concrete
recording state the event log after stop is unchanged and contains no
session-end event, while the rest of stop (timer off, queue flushed)
proceeds. -/
theorem stop_drops_session_end :
    ((stop 50 true 99 "https://site.example/"
        ⟨true, some "wv_1",
          [⟨EventType_SESSION_START, 1, some "wv_1", WData.channelData 0⟩],
          [⟨EventType_SESSION_START, 1, some "wv_1", WData.channelData 0⟩], true⟩).events
      = [⟨EventType_SESSION_START, 1, some "wv_1", WData.channelData 0⟩]) ∧
    ((stop 50 true 99 "https://site.example/"
        ⟨true, some "wv_1",
          [⟨EventType_SESSION_START, 1, some "wv_1", WData.channelData 0⟩],
          [⟨EventType_SESSION_START, 1, some "wv_1", WData.channelData 0⟩], true⟩).events.filter
        (fun e => e.etype == EventType_SESSION_END) = []) ∧
    ((stop 50 true 99 "https://site.example/"
        ⟨true, some "wv_1",
          [⟨EventType_SESSION_START, 1, some "wv_1", WData.channelData 0⟩],
          [⟨EventType_SESSION_START, 1, some "wv_1", WData.channelData 0⟩], true⟩).isRecording
      = false) ∧
    ((stop 50 true 99 "https://site.example/"
        ⟨true, some "wv_1",
          [⟨EventType_SESSION_START, 1, some "wv_1", WData.channelData 0⟩],
          [⟨EventType_SESSION_START, 1, some "wv_1", WData.channelData 0⟩], true⟩).sendQueue
      = []) := by
  exact ⟨by decide, by decide, by decide, by decide⟩

/-- Claim C3.  The claim states that the explicit mask attribute
(data-ym-mask) forces shouldMask to true regardless of the
maskSensitiveInputs setting, being checked right after maskAllInputs.
The code checks the attribute only after the early return on
maskSensitiveInputs being false, so an input carrying the attribute is
reported unmasked under maskAllInputs = false, maskSensitiveInputs =
false, while the same input is masked once maskSensitiveInputs is true. -/
theorem shouldMask_explicit_attr_ignored :
    InputRecorder.shouldMask false false
      (DNode.element "INPUT" [("type", "text"), ("data-ym-mask", "")] "" 0 []) = false ∧
    InputRecorder.shouldMask false true
      (DNode.element "INPUT" [("type", "text"), ("data-ym-mask", "")] "" 0 []) = true := by
  exact ⟨by decide, by decide⟩

/-- Claim C4.  maskValue returns the mask character repeated
min(length, 20) times, for every string (the empty string hits the falsy
guard and equals the zero-length repetition), and masking is idempotent. -/
theorem maskValue_repeat_idempotent (v : String) :
    InputRecorder.maskValue v = String.mk (List.replicate (min v.length 20) '*') ∧
    InputRecorder.maskValue (InputRecorder.maskValue v) = InputRecorder.maskValue v := by
  obtain ⟨l⟩ := v
  by_cases h : l = []
  · subst h
    exact ⟨rfl, rfl⟩
  · have hbeq : (String.mk l == "") = false := by
      rcases l with _ | ⟨c, cs⟩
      · exact absurd rfl h
      · rfl
    have hmask : InputRecorder.maskValue (String.mk l)
        = String.mk (List.replicate (min (String.mk l).length 20) '*') := by
      unfold InputRecorder.maskValue
      rw [hbeq]
      rfl
    refine ⟨hmask, ?_⟩
    have hlen : 0 < l.length := List.length_pos.mpr h
    have hmin : 0 < min (String.mk l).length 20 := by
      have : (String.mk l).length = l.length := rfl
      rw [this]
      omega
    have hbeq2 : (String.mk (List.replicate (min (String.mk l).length 20) '*') == "") = false := by
      rcases hrep : List.replicate (min (String.mk l).length 20) '*' with _ | ⟨c, cs⟩
      · exfalso
        have := List.length_replicate (min (String.mk l).length 20) '*'
        rw [hrep] at this
        simp at this
        omega
      · rfl
    rw [hmask]
    unfold InputRecorder.maskValue
    rw [hbeq2]
    have hlenrep : (String.mk (List.replicate (min (String.mk l).length 20) '*')).length
        = min (String.mk l).length 20 := by
      show (List.replicate (min (String.mk l).length 20) '*').length = _
      exact List.length_replicate _ _
    rw [hlenrep]
    have : min (min (String.mk l).length 20) 20 = min (String.mk l).length 20 := by
      omega
    rw [this]
    simp

/-- Claim C5.  The sendBatch queue transformation removes exactly
min(queue length, batch size) events from the head: on success the
remainder survives followed by the events enqueued during the flush, on
failure the removed batch is pushed back at the head ahead of those
arrivals, so the queue equals the original queue followed by the
arrivals, with enqueue order intact. -/
theorem sendBatch_queue_order (batchSize : Nat) (q arrivals : List WEvent) :
    (q.take batchSize).length = min q.length batchSize ∧
    q = q.take batchSize ++ q.drop batchSize ∧
    sendBatchQueue batchSize false arrivals q = q ++ arrivals ∧
    sendBatchQueue batchSize true arrivals q = q.drop batchSize ++ arrivals := by
  refine ⟨?_, (List.take_append_drop batchSize q).symm, ?_, ?_⟩
  · rw [List.length_take]
    omega
  · unfold sendBatchQueue
    by_cases h : q.length = 0
    · rw [if_pos h]
    · rw [if_neg h]
      simp only [Bool.false_eq_true, if_false]
      rw [← List.append_assoc, List.take_append_drop]
  · unfold sendBatchQueue
    by_cases h : q.length = 0
    · rw [if_pos h]
      have : q = [] := List.length_eq_zero.mp h
      subst this
      simp
    · rw [if_neg h]
      simp

/-- Claim C6, counterexample.  The claim states that a URL change to an
excluded page emits no event while currentUrl still advances to the new
URL.  On a concrete transition to a URL matching the exclusion pattern,
no event is emitted, but currentUrl keeps its previous value instead of
advancing: the excluded-page early return happens before the currentUrl
assignment. -/
theorem recordTransition_excluded_counterexample :
    ((NavigationRecorder.recordTransition [fun u => strIncludes u "/admin"] "pushState"
        "https://site.example/admin" "T" 5 ⟨"https://site.example/home"⟩).2 = []) ∧
    ((NavigationRecorder.recordTransition [fun u => strIncludes u "/admin"] "pushState"
        "https://site.example/admin" "T" 5 ⟨"https://site.example/home"⟩).1.currentUrl
      = "https://site.example/home") ∧
    "https://site.example/home" ≠ "https://site.example/admin" := by
  exact ⟨by decide, by decide, by decide⟩

/-- Claim C6, amended: for every URL change where the new URL matches an
excluded-page pattern, recordTransition emits no page-transition event
and leaves the navigation recorder's currentUrl bookkeeping unchanged
(it retains the previous URL). -/
theorem recordTransition_excluded_noop (excludePages : List (String → Bool))
    (trigger newUrl title : String) (now : Nat) (s : NavState)
    (hchange : newUrl ≠ s.currentUrl)
    (hexcl : NavigationRecorder.isExcludedPage excludePages newUrl = true) :
    NavigationRecorder.recordTransition excludePages trigger newUrl title now s = (s, []) := by
  unfold NavigationRecorder.recordTransition
  have h1 : (newUrl == s.currentUrl) = false := beq_eq_false_iff_ne.mpr hchange
  rw [h1]
  simp only [Bool.false_eq_true, if_false]
  rw [hexcl]
  simp

/-- Witness for the amended claim C6 at a concrete excluded transition. -/
theorem recordTransition_excluded_noop_witness :
    ("https://site.example/admin" : String) ≠ "https://site.example/home" ∧
    NavigationRecorder.isExcludedPage [fun u => strIncludes u "/admin"]
      "https://site.example/admin" = true ∧
    NavigationRecorder.recordTransition [fun u => strIncludes u "/admin"] "pushState"
      "https://site.example/admin" "T" 5 ⟨"https://site.example/home"⟩
      = (⟨"https://site.example/home"⟩, []) :=
  ⟨by decide, by decide,
   recordTransition_excluded_noop _ _ _ _ _ _ (by decide) (by decide)⟩

/-- Claim C7, counterexample.  The claim describes the selector walk as
taking the lowercase tag name at every level, stopping only after five
ancestor levels or at the document root.  For a span without an id whose
parent div carries an id, the source walk emits the parent's escaped #id
and stops there, so it disagrees with the claimed walk. -/
theorem getSelector_claimed_counterexample :
    getSelector (DNode.element "DIV" [("id", "p")] "" 0
        [DNode.element "SPAN" [] "" 0 []]) [0] = "#p > span" ∧
    getSelectorClaimed (DNode.element "DIV" [("id", "p")] "" 0
        [DNode.element "SPAN" [] "" 0 []]) [0] = "div > span" ∧
    getSelector (DNode.element "DIV" [("id", "p")] "" 0
        [DNode.element "SPAN" [] "" 0 []]) [0]
      ≠ getSelectorClaimed (DNode.element "DIV" [("id", "p")] "" 0
        [DNode.element "SPAN" [] "" 0 []]) [0] := by
  exact ⟨by decide, by decide, by decide⟩

/-- The source selector walk agrees with the amended claim's walk on
every reversed path and accumulator. -/
theorem getSelectorLoop_eq_amended (root : DNode) :
    ∀ (rp : List Nat) (acc : List String),
      getSelectorLoop root rp acc = amendedSelectorLoop root rp acc := by
  intro rp
  induction rp with
  | nil => intro _; rfl
  | cons i above ih => intro acc; simp only [getSelectorLoop, amendedSelectorLoop, ih]

/-- Claim C7, amended: getSelector returns the escaped #id immediately
for an element with an id; otherwise it walks toward the root taking the
lowercase tag name, at most two class tokens and an nth-of-type
disambiguator only for same-tag siblings at each level, except that a
level whose element carries an id contributes that escaped #id and ends
the walk; stopping otherwise after five ancestor levels or at the
document root, joining the parts with the child separator. -/
theorem getSelector_matches_amended (root : DNode) (p : Path) :
    getSelector root p = getSelectorAmended root p := by
  unfold getSelector getSelectorAmended
  simp only [getSelectorLoop_eq_amended]

/-- Claim C10.  getSessionPath joins the storage directory with the
sanitized id plus the .json suffix, and the sanitized id consists only of
ASCII letters, digits, underscore and hyphen; in particular it contains
no path separator, no backslash and no dot, so the file operated on lies
directly inside the storage directory for every input, including ids
containing slashes or dot-dot segments. -/
theorem getSessionPath_no_traversal (storagePath sessionId : String) :
    ∃ s : String,
      SessionStore.getSessionPath storagePath sessionId
        = pathJoin storagePath (s ++ ".json") ∧
      s.data.all allowedIdChar = true ∧
      '/' ∉ s.data ∧ '\\' ∉ s.data ∧ '.' ∉ s.data := by
  refine ⟨SessionStore.sanitizeId sessionId, rfl, ?_, ?_, ?_, ?_⟩
  · apply List.all_eq_true.mpr
    intro c hc
    exact (List.mem_filter.mp hc).2
  · intro hmem
    exact absurd (List.mem_filter.mp hmem).2 (by decide)
  · intro hmem
    exact absurd (List.mem_filter.mp hmem).2 (by decide)
  · intro hmem
    exact absurd (List.mem_filter.mp hmem).2 (by decide)

/-- A successful map lookup returns a recorded pair. -/
theorem mapLookup_some_mem {α : Type} [DecidableEq α] {a : α} {i : Nat} :
    ∀ {l : List (α × Nat)}, mapLookup a l = some i → (a, i) ∈ l := by
  intro l
  induction l with
  | nil => intro h; exact absurd h (by simp [mapLookup])
  | cons kv rest ih =>
    intro h
    obtain ⟨k, b⟩ := kv
    rw [mapLookup] at h
    by_cases he : a = k
    · rw [if_pos he] at h
      obtain rfl := he
      obtain rfl : b = i := by injection h
      exact List.mem_cons_self _ _
    · rw [if_neg he] at h
      exact List.mem_cons_of_mem _ (ih h)

/-- A failed map lookup means the key is recorded nowhere. -/
theorem mapLookup_none_not_mem {α : Type} [DecidableEq α] {a : α} {i : Nat} :
    ∀ {l : List (α × Nat)}, mapLookup a l = none → (a, i) ∉ l := by
  intro l
  induction l with
  | nil => intro _ hmem; exact absurd hmem (List.not_mem_nil _)
  | cons kv rest ih =>
    intro h hmem
    obtain ⟨k, b⟩ := kv
    rw [mapLookup] at h
    by_cases he : a = k
    · rw [if_pos he] at h
      exact absurd h (by simp)
    · rw [if_neg he] at h
      rcases List.mem_cons.mp hmem with heq | hmem2
      · exact he (congrArg Prod.fst heq)
      · exact ih h hmem2

/-- A failed map lookup means the key is absent from the key column. -/
theorem mapLookup_none_not_key {α : Type} [DecidableEq α] {a : α}
    {l : List (α × Nat)} (h : mapLookup a l = none) :
    a ∉ l.map (fun kv => kv.1) := by
  intro hmem
  obtain ⟨kv, hkv, hfst⟩ := List.mem_map.mp hmem
  have hkveq : kv = (a, kv.2) := Prod.ext hfst rfl
  rw [hkveq] at hkv
  exact mapLookup_none_not_mem h hkv

/-- getNodeId on a recorded node: the recorded id, registry unchanged. -/
theorem getNodeId_eq_some {α : Type} [DecidableEq α] {r : Registry α} {a : α} {i : Nat}
    (h : mapLookup a r.nodeIdMap = some i) : DOMRecorder.getNodeId r a = (i, r) := by
  unfold DOMRecorder.getNodeId
  rw [h]

/-- getNodeId on an unseen node: the counter value, recorded, counter
bumped. -/
theorem getNodeId_eq_none {α : Type} [DecidableEq α] {r : Registry α} {a : α}
    (h : mapLookup a r.nodeIdMap = none) :
    DOMRecorder.getNodeId r a
      = (r.nextNodeId, ⟨(a, r.nextNodeId) :: r.nodeIdMap, r.nextNodeId + 1⟩) := by
  unfold DOMRecorder.getNodeId
  rw [h]

/-- Claim C9.  The node registry is referentially stable and injective
within one session: a repeated getNodeId call returns the same integer
and the same registry; an unseen node receives the monotone counter's
current value, which no recorded node holds; the registry's invariants
survive the call and the counter never decreases; and two distinct nodes
never receive the same integer. -/
theorem getNodeId_registry {α : Type} [DecidableEq α] (r : Registry α) (a b : α)
    (hwf : r.WF) (hab : a ≠ b) :
    (DOMRecorder.getNodeId ((DOMRecorder.getNodeId r a).2) a).1
      = (DOMRecorder.getNodeId r a).1 ∧
    (DOMRecorder.getNodeId ((DOMRecorder.getNodeId r a).2) a).2
      = (DOMRecorder.getNodeId r a).2 ∧
    (mapLookup a r.nodeIdMap = none →
      (DOMRecorder.getNodeId r a).1 = r.nextNodeId ∧
      ∀ kv ∈ r.nodeIdMap, kv.2 ≠ r.nextNodeId) ∧
    (DOMRecorder.getNodeId r a).2.WF ∧
    r.nextNodeId ≤ (DOMRecorder.getNodeId r a).2.nextNodeId ∧
    (DOMRecorder.getNodeId ((DOMRecorder.getNodeId r a).2) b).1
      ≠ (DOMRecorder.getNodeId r a).1 := by
  obtain ⟨hkeys, hvals, hbound⟩ := hwf
  cases hl : mapLookup a r.nodeIdMap with
  | some i =>
    rw [getNodeId_eq_some hl]
    refine ⟨by rw [getNodeId_eq_some hl], by rw [getNodeId_eq_some hl], ?_,
      ⟨hkeys, hvals, hbound⟩, le_refl _, ?_⟩
    · intro habs
      exact absurd habs (by simp)
    · cases hlb : mapLookup b r.nodeIdMap with
      | some j =>
        rw [getNodeId_eq_some hlb]
        intro hji
        have hji2 : j = i := hji
        have hmema : (a, i) ∈ r.nodeIdMap := mapLookup_some_mem hl
        have hmemb : (b, j) ∈ r.nodeIdMap := mapLookup_some_mem hlb
        have := List.inj_on_of_nodup_map hvals hmemb hmema (by simpa using hji2)
        exact hab (congrArg Prod.fst this).symm
      | none =>
        rw [getNodeId_eq_none hlb]
        have : i < r.nextNodeId := hbound _ (mapLookup_some_mem hl)
        exact fun habs => absurd habs.symm (Nat.ne_of_lt this)
  | none =>
    rw [getNodeId_eq_none hl]
    have hself : mapLookup a ((a, r.nextNodeId) :: r.nodeIdMap) = some r.nextNodeId := by
      rw [mapLookup, if_pos rfl]
    have hr1 : (DOMRecorder.getNodeId
        (⟨(a, r.nextNodeId) :: r.nodeIdMap, r.nextNodeId + 1⟩ : Registry α) a)
        = (r.nextNodeId, ⟨(a, r.nextNodeId) :: r.nodeIdMap, r.nextNodeId + 1⟩) :=
      getNodeId_eq_some hself
    refine ⟨by rw [hr1], by rw [hr1], ?_, ?_, ?_, ?_⟩
    · intro _
      exact ⟨rfl, fun kv hkv => Nat.ne_of_lt (hbound kv hkv)⟩
    · refine ⟨?_, ?_, ?_⟩
      · rw [List.map_cons]
        exact List.nodup_cons.mpr ⟨mapLookup_none_not_key hl, hkeys⟩
      · rw [List.map_cons]
        refine List.nodup_cons.mpr ⟨?_, hvals⟩
        intro hmem
        obtain ⟨kv, hkv, hsnd⟩ := List.mem_map.mp hmem
        exact absurd hsnd (Nat.ne_of_lt (hbound kv hkv))
      · intro kv hkv
        rcases List.mem_cons.mp hkv with heq | hmem
        · rw [heq]
          exact Nat.lt_succ_self _
        · exact Nat.lt_succ_of_lt (hbound kv hmem)
    · exact Nat.le_succ _
    · cases hlb : mapLookup b r.nodeIdMap with
      | some j =>
        have hb1 : mapLookup b ((a, r.nextNodeId) :: r.nodeIdMap) = some j := by
          rw [mapLookup, if_neg (Ne.symm hab), hlb]
        rw [getNodeId_eq_some hb1]
        have : j < r.nextNodeId := hbound _ (mapLookup_some_mem hlb)
        exact fun habs => absurd habs (Nat.ne_of_lt this)
      | none =>
        have hb1 : mapLookup b ((a, r.nextNodeId) :: r.nodeIdMap) = none := by
          rw [mapLookup, if_neg (Ne.symm hab), hlb]
        rw [getNodeId_eq_none hb1]
        exact fun habs => absurd habs (Nat.succ_ne_self _)

/-- Witness for claim C9 on the fresh registry and two distinct node
references. -/
theorem getNodeId_registry_witness :
    (Registry.init : Registry Path).WF ∧ ([0] : Path) ≠ [1] ∧
    ((DOMRecorder.getNodeId ((DOMRecorder.getNodeId (Registry.init : Registry Path) [0]).2) [0]).1
      = (DOMRecorder.getNodeId (Registry.init : Registry Path) [0]).1 ∧
    (DOMRecorder.getNodeId ((DOMRecorder.getNodeId (Registry.init : Registry Path) [0]).2) [0]).2
      = (DOMRecorder.getNodeId (Registry.init : Registry Path) [0]).2 ∧
    (mapLookup ([0] : Path) (Registry.init : Registry Path).nodeIdMap = none →
      (DOMRecorder.getNodeId (Registry.init : Registry Path) [0]).1
        = (Registry.init : Registry Path).nextNodeId ∧
      ∀ kv ∈ (Registry.init : Registry Path).nodeIdMap,
        kv.2 ≠ (Registry.init : Registry Path).nextNodeId) ∧
    (DOMRecorder.getNodeId (Registry.init : Registry Path) [0]).2.WF ∧
    (Registry.init : Registry Path).nextNodeId
      ≤ (DOMRecorder.getNodeId (Registry.init : Registry Path) [0]).2.nextNodeId ∧
    (DOMRecorder.getNodeId ((DOMRecorder.getNodeId (Registry.init : Registry Path) [0]).2) [1]).1
      ≠ (DOMRecorder.getNodeId (Registry.init : Registry Path) [0]).1) :=
  ⟨⟨by decide, by decide, by decide⟩, by decide,
   getNodeId_registry (Registry.init : Registry Path) [0] [1]
     ⟨by decide, by decide, by decide⟩ (by decide)⟩

/-- The derived fingerprint always carries the fp marker, so it is never
the empty string and the visitor upsert always runs. -/
theorem generateFingerprint_ne (m : Meta) (ip : Option String) :
    (PostgresStore.generateFingerprint m ip != "") = true := by
  unfold PostgresStore.generateFingerprint
  apply bne_iff_ne.mpr
  intro h
  have hdata := congrArg String.data h
  rw [String.data_append] at hdata
  exact absurd hdata (by simp)

/-- The visitor upsert never touches the sessions table. -/
theorem upsertVisitorTx_sessions (db : DB) (now : Nat) (f : String)
    (ip : Option String) (m : Meta) :
    (upsertVisitorTx db now f ip m).2.sessions = db.sessions := by
  unfold upsertVisitorTx
  cases db.visitors.find? (fun v => v.fingerprint == f) <;> rfl

/-- Session rows whose id differs from sid are untouched by the
event-count update, contribute nothing to the sid filter, and fail the
sid existence check. -/
theorem sessionRows_untouched (sid : String) (g : SessionRow → SessionRow) :
    ∀ (l : List SessionRow), l.all (fun s => s.session_id != sid) = true →
      (l.map (fun s => if s.session_id == sid then g s else s) = l ∧
       l.filter (fun s => s.session_id == sid) = [] ∧
       l.any (fun s => s.session_id == sid) = false) := by
  intro l
  induction l with
  | nil => intro _; exact ⟨rfl, rfl, rfl⟩
  | cons x rest ih =>
    intro hall
    rw [List.all_cons, Bool.and_eq_true] at hall
    have hne : x.session_id ≠ sid := by simpa using hall.1
    have hx : (x.session_id == sid) = false := beq_eq_false_iff_ne.mpr hne
    obtain ⟨h1, h2, h3⟩ := ih hall.2
    refine ⟨?_, ?_, ?_⟩
    · rw [List.map_cons, hx, h1]
      simp
    · rw [List.filter_cons, hx, h2]
      simp
    · rw [List.any_cons, hx, h3]
      rfl

/-- The sessions table after storeEvents: when a row for sid existed the
table is just rewritten by the count bump on that row; otherwise a fresh
row for sid with zero count is appended first and then rewritten.  The
fresh row's identity fields are abstracted behind the existential. -/
theorem storeEvents_sessions_char (db : DB) (sid : String) (events : List EventIn)
    (m : Meta) (ip : Option String) (t : Nat) :
    ∃ row0 : SessionRow, row0.session_id = sid ∧ row0.event_count = 0 ∧
      (PostgresStore.storeEvents db sid events m ip t).sessions
        = (if db.sessions.any (fun s => s.session_id == sid) then db.sessions
           else db.sessions ++ [row0]).map
            (fun s => if s.session_id == sid then
               { s with event_count := s.event_count + events.length, updated_at := t }
             else s) := by
  refine ⟨{ session_id := sid,
            visitor_id := some (upsertVisitorTx db t
              (PostgresStore.generateFingerprint m ip) ip m).1,
            fingerprint := some (PostgresStore.generateFingerprint m ip),
            ip_address := ip, url := m.url, title := m.title, referrer := m.referrer,
            user_agent := m.userAgent, screen_width := m.screenW,
            screen_height := m.screenH, viewport_width := m.viewportW,
            viewport_height := m.viewportH, created_at := t, updated_at := t,
            event_count := 0 }, rfl, rfl, ?_⟩
  simp [PostgresStore.storeEvents, generateFingerprint_ne, upsertVisitorTx_sessions,
    apply_ite DB.sessions]

/-- Claim C8.  Posting a batch of 3 events under a session id unknown to
the store creates exactly one session row for that id with event_count 3;
posting a further batch of 2 events for the same id updates that single
row to event_count 5 and the store still holds exactly one more session
row than before, so no duplicate session row is ever created. -/
theorem storeEvents_session_counts (db : DB) (sid : String) (e1 e2 : List EventIn)
    (m1 m2 : Meta) (ip1 ip2 : Option String) (t1 t2 : Nat)
    (hfresh : db.sessions.all (fun s => s.session_id != sid) = true)
    (h1 : e1.length = 3) (h2 : e2.length = 2) :
    ((PostgresStore.storeEvents db sid e1 m1 ip1 t1).sessions.filter
        (fun s => s.session_id == sid)).map (fun s => s.event_count) = [3] ∧
    ((PostgresStore.storeEvents (PostgresStore.storeEvents db sid e1 m1 ip1 t1)
        sid e2 m2 ip2 t2).sessions.filter
        (fun s => s.session_id == sid)).map (fun s => s.event_count) = [5] ∧
    (PostgresStore.storeEvents (PostgresStore.storeEvents db sid e1 m1 ip1 t1)
        sid e2 m2 ip2 t2).sessions.length = db.sessions.length + 1 := by
  obtain ⟨hmapA, hfilterA, hanyA⟩ := sessionRows_untouched sid
    (fun s => { s with event_count := s.event_count + e1.length, updated_at := t1 })
    db.sessions hfresh
  obtain ⟨hmapB, hfilterB, hanyB⟩ := sessionRows_untouched sid
    (fun s => { s with event_count := s.event_count + e2.length, updated_at := t2 })
    db.sessions hfresh
  obtain ⟨row0, hrid, hrcount, hchar1⟩ := storeEvents_sessions_char db sid e1 m1 ip1 t1
  have hrowbeq : (row0.session_id == sid) = true := beq_iff_eq.mpr hrid
  rw [hanyA] at hchar1
  simp only [Bool.false_eq_true, if_false, List.map_append, hmapA, List.map_cons,
    List.map_nil, hrowbeq, if_true] at hchar1
  rw [hrcount, h1] at hchar1
  obtain ⟨row0b, hridb, hrcountb, hchar2⟩ :=
    storeEvents_sessions_char (PostgresStore.storeEvents db sid e1 m1 ip1 t1) sid e2 m2 ip2 t2
  have hany2 : ((PostgresStore.storeEvents db sid e1 m1 ip1 t1).sessions.any
      (fun s => s.session_id == sid)) = true := by
    rw [hchar1, List.any_append]
    simp [hanyA, hrowbeq]
  rw [hany2, if_pos rfl, hchar1, List.map_append, hmapB, List.map_cons, List.map_nil] at hchar2
  refine ⟨?_, ?_, ?_⟩
  · rw [hchar1, List.filter_append, hfilterA]
    simp [hrowbeq]
  · rw [hchar2, List.filter_append, hfilterB]
    simp [hrowbeq, h2]
  · rw [hchar2]
    simp

/-- Witness for claim C8 on the empty store and concrete batches of three
and two events. -/
theorem storeEvents_session_counts_witness :
    (DB.mk [] [] [] 1).sessions.all (fun s => s.session_id != "s1") = true ∧
    ([⟨9, 1, "d"⟩, ⟨0, 2, "d"⟩, ⟨5, 3, "d"⟩] : List EventIn).length = 3 ∧
    ([⟨5, 4, "d"⟩, ⟨10, 5, "d"⟩] : List EventIn).length = 2 ∧
    (((PostgresStore.storeEvents (DB.mk [] [] [] 1) "s1"
        [⟨9, 1, "d"⟩, ⟨0, 2, "d"⟩, ⟨5, 3, "d"⟩] {} none 100).sessions.filter
        (fun s => s.session_id == "s1")).map (fun s => s.event_count) = [3] ∧
     ((PostgresStore.storeEvents
        (PostgresStore.storeEvents (DB.mk [] [] [] 1) "s1"
          [⟨9, 1, "d"⟩, ⟨0, 2, "d"⟩, ⟨5, 3, "d"⟩] {} none 100) "s1"
        [⟨5, 4, "d"⟩, ⟨10, 5, "d"⟩] {} none 200).sessions.filter
        (fun s => s.session_id == "s1")).map (fun s => s.event_count) = [5] ∧
     (PostgresStore.storeEvents
        (PostgresStore.storeEvents (DB.mk [] [] [] 1) "s1"
          [⟨9, 1, "d"⟩, ⟨0, 2, "d"⟩, ⟨5, 3, "d"⟩] {} none 100) "s1"
        [⟨5, 4, "d"⟩, ⟨10, 5, "d"⟩] {} none 200).sessions.length
       = (DB.mk [] [] [] 1).sessions.length + 1) :=
  ⟨by decide, by decide, by decide,
   storeEvents_session_counts (DB.mk [] [] [] 1) "s1"
     [⟨9, 1, "d"⟩, ⟨0, 2, "d"⟩, ⟨5, 3, "d"⟩] [⟨5, 4, "d"⟩, ⟨10, 5, "d"⟩]
     {} {} none none 100 200 (by decide) (by decide) (by decide)⟩

end Webvisor
